import Mathlib

/-!
Verification development for the drift-monitoring core of the
`phishing_monitoring` repository.

The embedding models the three core components:

* `detectDrift` — `src/drift_detector.py`, `DriftDetector.detect_drift`;
* `retrain_model` — `src/retrain.py`, `retrain_model`;
* `process_batch` — `src/monitor.py`, `ModelMonitor.process_batch`.

Datasets (pandas DataFrames) are modelled as named columns of rational
values; p-values are rationals.  The external statistical routines
(`scipy.stats.ks_2samp`, `scipy.stats.chi2_contingency`) and the external
model provider (`sklearn` fit) are not part of the repository; they enter
the embedding as function parameters (`ksP`, `chi2P`, `fit`), and facts
about them that a theorem needs are explicit hypotheses.  A Python
exception that the repository code does not catch is modelled by `Option`
(`none` = the call raised); exceptions the code catches are handled inside
the definitions exactly where the source catches them.
-/

namespace PhishMon

/-- A dataset column: the ordered values of one feature. -/
abbrev Col := List ℚ

/-- A pandas DataFrame: named columns in order.  Row orientation is not
needed by the drift core, which only ever reads whole columns. -/
structure DataFrame where
  cols : List (String × Col)
deriving DecidableEq

/-- Column access `df[name]`: `none` models the `KeyError` raised by pandas
when the column is absent. -/
def DataFrame.getCol (df : DataFrame) (name : String) : Option Col :=
  (df.cols.find? (fun c => c.1 = name)).map Prod.snd

/-- Embedding of `df.drop(columns=[name])` restricted to the success case: removes the
named column. -/
def DataFrame.dropCol (df : DataFrame) (name : String) : DataFrame :=
  ⟨df.cols.filter (fun c => ¬ c.1 = name)⟩

/-- The fixed significance threshold `self.p_value_threshold = 0.05`. -/
def p_value_threshold : ℚ := 0.05

/-- The fixed list of numerical features tested with KS
(`numerical_features` in `detect_drift`). -/
def numerical_features : List String := ["url_length", "num_special_chars"]

/-- The fixed list of categorical features tested with Chi-Square
(`categorical_features` in `detect_drift`). -/
def categorical_features : List String := ["has_ip_address", "https_token"]

/-- One per-feature record of the drift report:
`{'test': ..., 'p_value': ..., 'drift_detected': ...}`. -/
structure FeatureReport where
  test : String
  p_value : ℚ
  drift_detected : Bool
deriving DecidableEq

/-- A drift report: feature name to per-feature record, in insertion
order (Python dicts preserve insertion order). -/
abbrev Report := List (String × FeatureReport)

/-- Insert a value into a `≤`-sorted list, keeping it sorted. -/
def insertSorted (x : ℚ) : List ℚ → List ℚ
  | [] => [x]
  | y :: ys => if x ≤ y then x :: y :: ys else y :: insertSorted x ys

/-- Python's `sorted` on rational values. -/
def sortQ (xs : List ℚ) : List ℚ := xs.foldr insertSorted []

/-- The `sorted(list(set(ref_counts.index) | set(new_counts.index)))` step:
the sorted union of the categories observed in either column. -/
def allCategories (r n : Col) : List ℚ := sortQ ((r.dedup ++ n.dedup).dedup)

/-- The contingency table built by `detect_drift` for one categorical
feature, after the `contingency_table[:, contingency_table.sum(axis=0) > 0]`
filter: one `(ref count, new count)` column per category of the sorted
union, keeping only columns whose total count is positive. -/
def contingencyFor (r n : Col) : List (ℕ × ℕ) :=
  (((allCategories r n).map (fun c => r.count c)).zip
      ((allCategories r n).map (fun c => n.count c))).filter
    (fun p => 0 < p.1 + p.2)

/-- Body of the numerical-feature loop of `detect_drift`: KS test on the
two columns; `ksP` stands for the p-value returned by
`scipy.stats.ks_2samp`.  `none` models the `KeyError` when a column is
missing. -/
def numFeatureReport (ksP : Col → Col → ℚ) (ref new : DataFrame)
    (feature : String) : Option FeatureReport :=
  match ref.getCol feature, new.getCol feature with
  | some r, some n =>
      let p := ksP r n
      some ⟨"KS", p, decide (p < p_value_threshold)⟩
  | _, _ => none

/-- Body of the categorical-feature loop of `detect_drift`: build the
contingency table, drop zero-total columns, fall back to p-value `1.0`
when fewer than two columns remain, otherwise run the chi-square test;
`chi2P` stands for the p-value returned by
`scipy.stats.chi2_contingency` on the two rows of the table. -/
def catFeatureReport (chi2P : List ℕ → List ℕ → ℚ) (ref new : DataFrame)
    (feature : String) : Option FeatureReport :=
  match ref.getCol feature, new.getCol feature with
  | some r, some n =>
      let table := contingencyFor r n
      let p := if table.length < 2 then (1 : ℚ)
               else chi2P (table.map Prod.fst) (table.map Prod.snd)
      some ⟨"Chi-Square", p, decide (p < p_value_threshold)⟩
  | _, _ => none

/-- Embedding of `DriftDetector.detect_drift(new_data)` with `self.reference_data = ref`:
the numerical loop runs first (in list order), then the categorical loop;
the global flag is the OR of the per-feature flags; the report holds one
entry per feature in loop order.  `none` models an uncaught exception
(missing column). -/
def detectDrift (ksP : Col → Col → ℚ) (chi2P : List ℕ → List ℕ → ℚ)
    (ref new : DataFrame) : Option (Bool × Report) := do
  let r1 ← numFeatureReport ksP ref new "url_length"
  let r2 ← numFeatureReport ksP ref new "num_special_chars"
  let r3 ← catFeatureReport chi2P ref new "has_ip_address"
  let r4 ← catFeatureReport chi2P ref new "https_token"
  pure (r1.drift_detected || r2.drift_detected || r3.drift_detected
          || r4.drift_detected,
        [("url_length", r1), ("num_special_chars", r2),
         ("has_ip_address", r3), ("https_token", r4)])

/-- The classification artifact produced by the model provider.  The core
never reads model internals; the embedding records only the data the
provider was asked to fit, which is all the core hands over. -/
structure Model where
  trainX : DataFrame
  trainY : Col
deriving DecidableEq

/-- The persisted state the core reads and writes:
`models/reference_data.csv` and `models/phishing_model.pkl`.  `none` means
the file is absent. -/
structure FS where
  refFile : Option DataFrame
  modelFile : Option Model
deriving DecidableEq

/-- Embedding of `retrain_model(new_batch_data)` from `src/retrain.py`.  Everything runs
inside one `try/except Exception` that logs and returns, so every failure
leaves the remaining writes undone:

* reading `models/reference_data.csv` first (its content is never used);
  a missing file raises `FileNotFoundError` — caught, nothing written;
* `new_batch_data.drop(columns=['is_phishing'])` /
  `new_batch_data['is_phishing']` raise when the label column is absent —
  caught, nothing written;
* `clf.fit` is the external provider, parameter `fit`; `none` models a
  raised fit — caught, nothing written;
* `joblib.dump` persistence outcome is the `dumpOk` parameter; a raise is
  caught before the reference write;
* `X_new.to_csv` persistence outcome is the `writeOk` parameter; a raise
  is caught, leaving the reference file as it was. -/
def retrain_model (fit : DataFrame → Col → Option Model)
    (dumpOk writeOk : Bool) (fs : FS) (new_batch_data : DataFrame) : FS :=
  match fs.refFile with
  | none => fs
  | some _old_reference =>
    match new_batch_data.getCol "is_phishing" with
    | none => fs
    | some y_new =>
      match fit (new_batch_data.dropCol "is_phishing") y_new with
      | none => fs
      | some clf =>
        if dumpOk then
          (if writeOk then
            ⟨some (new_batch_data.dropCol "is_phishing"), some clf⟩
           else ⟨fs.refFile, some clf⟩)
        else fs

/-- The monitor's cross-cycle state: `self.reference_data` (and with it
`self.detector`, which is `None` exactly when `reference_data` is). -/
structure MonitorState where
  reference_data : Option DataFrame
deriving DecidableEq

/-- Embedding of `ModelMonitor.load_reference_data`: read the reference file, rebuild
the detector, report success; on `FileNotFoundError` clear both and
report failure. -/
def load_reference_data (fs : FS) : MonitorState × Bool :=
  match fs.refFile with
  | some df => (⟨some df⟩, true)
  | none => (⟨none⟩, false)

/-- The value `process_batch` returns: either the error dictionary
`{'error': ...}` or the cycle dictionary
`{'data': ..., 'drift_detected': ..., 'drift_report': ..., 'retrained': ...}`. -/
inductive PBResult where
  | error (msg : String)
  | cycle (data : DataFrame) (drift_detected : Bool) (report : Report)
      (retrained : Bool)
deriving DecidableEq

/-- Everything observable about one `process_batch` call: the persisted
state and monitor state after it, the returned dictionary, and whether
`generator.generate_data` was invoked during the call. -/
structure CycleOutput where
  fs : FS
  st : MonitorState
  result : PBResult
  batchFetched : Bool
deriving DecidableEq

/-- The Ready part of `process_batch`, from `generate_data` on, with
`ref` the reference the held detector was built against and `new_data`
the batch the generator returned.  `none` models an exception the monitor
does not catch (label column absent, or a schema error inside
`detect_drift`).  On drift: retrain, reload the reference, set
`retrained = True` unconditionally. -/
def runReadyCycle (ksP : Col → Col → ℚ) (chi2P : List ℕ → List ℕ → ℚ)
    (fit : DataFrame → Col → Option Model) (dumpOk writeOk : Bool)
    (fs : FS) (ref : DataFrame) (new_data : DataFrame) :
    Option CycleOutput :=
  match new_data.getCol "is_phishing" with
  | none => none
  | some _ =>
    match detectDrift ksP chi2P ref (new_data.dropCol "is_phishing") with
    | none => none
    | some (drift_detected, report) =>
      if drift_detected then
        some ⟨retrain_model fit dumpOk writeOk fs new_data,
              (load_reference_data
                (retrain_model fit dumpOk writeOk fs new_data)).1,
              .cycle new_data drift_detected report true, true⟩
      else
        some ⟨fs, ⟨some ref⟩, .cycle new_data drift_detected report false,
              true⟩

/-- Embedding of `ModelMonitor.process_batch(batch_size, drift_type)`.  The external
generator's output is the `new_data` parameter.  When the detector is
`None` the monitor first retries `load_reference_data`; if that fails it
returns the error dictionary without fetching a batch. -/
def process_batch (ksP : Col → Col → ℚ) (chi2P : List ℕ → List ℕ → ℚ)
    (fit : DataFrame → Col → Option Model) (dumpOk writeOk : Bool)
    (fs : FS) (st : MonitorState) (new_data : DataFrame) :
    Option CycleOutput :=
  match st.reference_data with
  | some ref => runReadyCycle ksP chi2P fit dumpOk writeOk fs ref new_data
  | none =>
    match fs.refFile with
    | some ref => runReadyCycle ksP chi2P fit dumpOk writeOk fs ref new_data
    | none =>
      some ⟨fs, ⟨none⟩,
            .error "Reference data not found. Train model first.", false⟩

/-! ### Concrete fixtures used by witnesses and counterexamples -/

/-- A small reference dataset with the declared feature schema. -/
def wRef : DataFrame :=
  ⟨[("url_length", [1, 2]), ("num_special_chars", [0, 1]),
    ("has_ip_address", [0, 1]), ("https_token", [1, 1])]⟩

/-- A small generator batch: the feature schema plus the label column. -/
def wBatch : DataFrame :=
  ⟨[("url_length", [1, 3]), ("num_special_chars", [0, 2]),
    ("has_ip_address", [0, 1]), ("https_token", [1, 1]),
    ("is_phishing", [0, 1])]⟩

/-- A KS oracle that always reports a non-significant p-value. -/
def wKsHalf : Col → Col → ℚ := fun _ _ => 1/2

/-- A KS oracle that always reports a maximally significant p-value. -/
def wKsZero : Col → Col → ℚ := fun _ _ => 0

/-- A chi-square oracle that always reports a non-significant p-value. -/
def wChiHalf : List ℕ → List ℕ → ℚ := fun _ _ => 1/2

/-- A KS oracle that reports p-value `1` on identical samples, as
`scipy.stats.ks_2samp` does (the KS statistic of a sample against itself
is `0`). -/
def wKsRefl : Col → Col → ℚ := fun a b => if a = b then 1 else 1/2

/-- A chi-square oracle that reports p-value `1` on a table with equal
rows, as `scipy.stats.chi2_contingency` does (the statistic vanishes when
observed equals expected). -/
def wChiRefl : List ℕ → List ℕ → ℚ := fun a b => if a = b then 1 else 1/2

/-- A model provider whose fit succeeds, recording its training inputs. -/
def wFitOk : DataFrame → Col → Option Model := fun X y => some ⟨X, y⟩

/-- A model provider whose fit raises (e.g. a simulated fit exception). -/
def wFitFail : DataFrame → Col → Option Model := fun _ _ => none

/-- A batch from which the declared feature `url_length` is absent. -/
def wBatchMissing : DataFrame :=
  ⟨[("num_special_chars", [0, 1]), ("has_ip_address", [0, 1]),
    ("https_token", [1, 1])]⟩

/-- The report `detect_drift` produces on `wRef` against itself with the
constant-`1/2` oracles (the `https_token` column is constant, so its test
is inconclusive and falls back to p-value `1`). -/
def wReport : Report :=
  [("url_length", ⟨"KS", 1/2, false⟩),
   ("num_special_chars", ⟨"KS", 1/2, false⟩),
   ("has_ip_address", ⟨"Chi-Square", 1/2, false⟩),
   ("https_token", ⟨"Chi-Square", 1, false⟩)]

/-- The report `detect_drift` produces on `wRef` against `wBatch`'s
features with the always-significant KS oracle `wKsZero`. -/
def wDriftReport : Report :=
  [("url_length", ⟨"KS", 0, true⟩),
   ("num_special_chars", ⟨"KS", 0, true⟩),
   ("has_ip_address", ⟨"Chi-Square", 1/2, false⟩),
   ("https_token", ⟨"Chi-Square", 1, false⟩)]

/-! ### Inversion lemmas for the detector -/

theorem numFeatureReport_shape {ksP : Col → Col → ℚ} {ref new : DataFrame}
    {f : String} {r : FeatureReport}
    (h : numFeatureReport ksP ref new f = some r) :
    ∃ a b, ref.getCol f = some a ∧ new.getCol f = some b ∧
      r = ⟨"KS", ksP a b, decide (ksP a b < p_value_threshold)⟩ := by
  unfold numFeatureReport at h
  cases ha : ref.getCol f with
  | none => cases hb : new.getCol f <;> rw [ha, hb] at h <;> cases h
  | some a =>
    cases hb : new.getCol f with
    | none => rw [ha, hb] at h; cases h
    | some b =>
      rw [ha, hb] at h
      simp only [Option.some.injEq] at h
      exact ⟨a, b, rfl, rfl, h.symm⟩

theorem catFeatureReport_shape {chi2P : List ℕ → List ℕ → ℚ}
    {ref new : DataFrame} {f : String} {r : FeatureReport}
    (h : catFeatureReport chi2P ref new f = some r) :
    ∃ a b, ref.getCol f = some a ∧ new.getCol f = some b ∧
      r = ⟨"Chi-Square",
            if (contingencyFor a b).length < 2 then (1 : ℚ)
            else chi2P ((contingencyFor a b).map Prod.fst)
              ((contingencyFor a b).map Prod.snd),
            decide ((if (contingencyFor a b).length < 2 then (1 : ℚ)
              else chi2P ((contingencyFor a b).map Prod.fst)
                ((contingencyFor a b).map Prod.snd)) < p_value_threshold)⟩ := by
  unfold catFeatureReport at h
  cases ha : ref.getCol f with
  | none => cases hb : new.getCol f <;> rw [ha, hb] at h <;> cases h
  | some a =>
    cases hb : new.getCol f with
    | none => rw [ha, hb] at h; cases h
    | some b =>
      rw [ha, hb] at h
      simp only [Option.some.injEq] at h
      exact ⟨a, b, rfl, rfl, h.symm⟩

theorem detectDrift_inv {ksP : Col → Col → ℚ} {chi2P : List ℕ → List ℕ → ℚ}
    {ref new : DataFrame} {g : Bool} {report : Report}
    (h : detectDrift ksP chi2P ref new = some (g, report)) :
    ∃ r1 r2 r3 r4,
      numFeatureReport ksP ref new "url_length" = some r1 ∧
      numFeatureReport ksP ref new "num_special_chars" = some r2 ∧
      catFeatureReport chi2P ref new "has_ip_address" = some r3 ∧
      catFeatureReport chi2P ref new "https_token" = some r4 ∧
      report = [("url_length", r1), ("num_special_chars", r2),
                ("has_ip_address", r3), ("https_token", r4)] ∧
      g = (r1.drift_detected || r2.drift_detected || r3.drift_detected
            || r4.drift_detected) := by
  unfold detectDrift at h
  cases h1 : numFeatureReport ksP ref new "url_length" <;> rw [h1] at h
  · simp at h
  cases h2 : numFeatureReport ksP ref new "num_special_chars" <;> rw [h2] at h
  · simp at h
  cases h3 : catFeatureReport chi2P ref new "has_ip_address" <;> rw [h3] at h
  · simp at h
  cases h4 : catFeatureReport chi2P ref new "https_token" <;> rw [h4] at h
  · simp at h
  simp only [Option.bind_eq_bind, Option.some_bind, Option.pure_def,
    Option.some.injEq, Prod.mk.injEq] at h
  exact ⟨_, _, _, _, rfl, rfl, rfl, rfl, h.2.symm, h.1.symm⟩

/-- The per-feature record the numerical loop produces on columns
`a` (reference) and `b` (batch). -/
def ksRec (ksP : Col → Col → ℚ) (a b : Col) : FeatureReport :=
  ⟨"KS", ksP a b, decide (ksP a b < p_value_threshold)⟩

/-- The p-value the categorical loop records on columns `a` and `b`:
`1.0` when fewer than two categories with support remain, the chi-square
oracle on the filtered table otherwise. -/
def chiP (chi2P : List ℕ → List ℕ → ℚ) (a b : Col) : ℚ :=
  if (contingencyFor a b).length < 2 then (1 : ℚ)
  else chi2P ((contingencyFor a b).map Prod.fst)
    ((contingencyFor a b).map Prod.snd)

/-- The per-feature record the categorical loop produces on columns
`a` and `b`. -/
def chiRec (chi2P : List ℕ → List ℕ → ℚ) (a b : Col) : FeatureReport :=
  ⟨"Chi-Square", chiP chi2P a b, decide (chiP chi2P a b < p_value_threshold)⟩

theorem numFeatureReport_eq {ksP : Col → Col → ℚ} {ref new : DataFrame}
    {f : String} {a b : Col}
    (ha : ref.getCol f = some a) (hb : new.getCol f = some b) :
    numFeatureReport ksP ref new f = some (ksRec ksP a b) := by
  unfold numFeatureReport
  rw [ha, hb]
  rfl

theorem catFeatureReport_eq {chi2P : List ℕ → List ℕ → ℚ}
    {ref new : DataFrame} {f : String} {a b : Col}
    (ha : ref.getCol f = some a) (hb : new.getCol f = some b) :
    catFeatureReport chi2P ref new f = some (chiRec chi2P a b) := by
  unfold catFeatureReport
  rw [ha, hb]
  rfl

/-- Explicit form of `detect_drift` when every declared feature is present
in both datasets: no exception, one record per feature in loop order, and
the global flag is the OR of the per-feature flags. -/
theorem detectDrift_eq {ksP : Col → Col → ℚ} {chi2P : List ℕ → List ℕ → ℚ}
    {ref new : DataFrame} {u1 u2 c1 c2 v1 v2 d1 d2 : Col}
    (h1 : ref.getCol "url_length" = some u1)
    (h2 : ref.getCol "num_special_chars" = some u2)
    (h3 : ref.getCol "has_ip_address" = some c1)
    (h4 : ref.getCol "https_token" = some c2)
    (h5 : new.getCol "url_length" = some v1)
    (h6 : new.getCol "num_special_chars" = some v2)
    (h7 : new.getCol "has_ip_address" = some d1)
    (h8 : new.getCol "https_token" = some d2) :
    detectDrift ksP chi2P ref new =
      some ((ksRec ksP u1 v1).drift_detected
              || (ksRec ksP u2 v2).drift_detected
              || (chiRec chi2P c1 d1).drift_detected
              || (chiRec chi2P c2 d2).drift_detected,
            [("url_length", ksRec ksP u1 v1),
             ("num_special_chars", ksRec ksP u2 v2),
             ("has_ip_address", chiRec chi2P c1 d1),
             ("https_token", chiRec chi2P c2 d2)]) := by
  unfold detectDrift
  rw [numFeatureReport_eq h1 h5, numFeatureReport_eq h2 h6,
    catFeatureReport_eq h3 h7, catFeatureReport_eq h4 h8]
  rfl

/-! ### C2 -/

/-- C2: for every reference dataset and batch, `detect_drift` marks an
individual feature as drifted exactly when that feature's recorded p-value
is strictly below `0.05`, and the global `drift_detected` flag is true
exactly when at least one feature's recorded p-value is below `0.05` — a
logical OR over all features, with no multiple-comparison correction. -/
theorem drift_flags_iff_pvalue_below_threshold
    (ksP : Col → Col → ℚ) (chi2P : List ℕ → List ℕ → ℚ)
    (ref new : DataFrame) (g : Bool) (report : Report)
    (h : detectDrift ksP chi2P ref new = some (g, report)) :
    (∀ pr ∈ report,
        pr.2.drift_detected = true ↔ pr.2.p_value < p_value_threshold) ∧
    (g = true ↔ ∃ pr ∈ report, pr.2.p_value < p_value_threshold) := by
  obtain ⟨r1, r2, r3, r4, h1, h2, h3, h4, hrep, hg⟩ := detectDrift_inv h
  obtain ⟨a1, b1, -, -, e1⟩ := numFeatureReport_shape h1
  obtain ⟨a2, b2, -, -, e2⟩ := numFeatureReport_shape h2
  obtain ⟨a3, b3, -, -, e3⟩ := catFeatureReport_shape h3
  obtain ⟨a4, b4, -, -, e4⟩ := catFeatureReport_shape h4
  subst hrep hg
  constructor
  · intro pr hpr
    simp only [List.mem_cons, List.not_mem_nil, or_false] at hpr
    rcases hpr with hpr | hpr | hpr | hpr <;> subst hpr <;>
      simp [e1, e2, e3, e4]
  · subst e1 e2 e3 e4
    simp [List.mem_cons, decide_eq_true_iff, or_assoc]

/-- Witness for C2 at a concrete reference, batch and oracles. -/
theorem drift_flags_iff_pvalue_below_threshold_witness :
    (∀ pr ∈ wReport,
        pr.2.drift_detected = true ↔ pr.2.p_value < p_value_threshold) ∧
    ((false : Bool) = true ↔
      ∃ pr ∈ wReport, pr.2.p_value < p_value_threshold) :=
  drift_flags_iff_pvalue_below_threshold wKsHalf wChiHalf wRef wRef false
    wReport (by with_unfolding_all decide)

/-! ### C5 -/

/-- C5: if the batch passed to the drift detector is missing a feature
declared in the schema, the detector raises (the fatal schema error,
a pandas `KeyError`, modelled by `none`) rather than skipping the feature,
and never returns a (possibly partial) drift report to its caller. -/
theorem detectDrift_missing_batch_feature_raises
    (ksP : Col → Col → ℚ) (chi2P : List ℕ → List ℕ → ℚ)
    (ref new : DataFrame) (f : String)
    (hf : f ∈ numerical_features ∨ f ∈ categorical_features)
    (hmiss : new.getCol f = none) :
    detectDrift ksP chi2P ref new = none := by
  cases hd : detectDrift ksP chi2P ref new with
  | none => rfl
  | some p =>
    obtain ⟨g, report⟩ := p
    obtain ⟨r1, r2, r3, r4, h1, h2, h3, h4, -, -⟩ := detectDrift_inv hd
    obtain ⟨a1, b1, -, hb1, -⟩ := numFeatureReport_shape h1
    obtain ⟨a2, b2, -, hb2, -⟩ := numFeatureReport_shape h2
    obtain ⟨a3, b3, -, hb3, -⟩ := catFeatureReport_shape h3
    obtain ⟨a4, b4, -, hb4, -⟩ := catFeatureReport_shape h4
    simp only [numerical_features, categorical_features, List.mem_cons,
      List.not_mem_nil, or_false] at hf
    rcases hf with (hf | hf) | (hf | hf) <;> subst hf
    · rw [hmiss] at hb1; exact Option.noConfusion hb1
    · rw [hmiss] at hb2; exact Option.noConfusion hb2
    · rw [hmiss] at hb3; exact Option.noConfusion hb3
    · rw [hmiss] at hb4; exact Option.noConfusion hb4

/-- Witness for C5: a concrete batch missing `url_length` makes the
detector raise instead of reporting. -/
theorem detectDrift_missing_batch_feature_raises_witness :
    detectDrift wKsHalf wChiHalf wRef wBatchMissing = none :=
  detectDrift_missing_batch_feature_raises wKsHalf wChiHalf wRef
    wBatchMissing "url_length"
    (Or.inl (by simp [numerical_features]))
    (by with_unfolding_all decide)

/-! ### C4 -/

/-- Every column kept in the contingency table has positive total
support: the zero-total columns are exactly the dropped ones. -/
theorem mem_contingencyFor_pos {a b : Col} :
    ∀ pr ∈ contingencyFor a b, 0 < pr.1 + pr.2 := by
  intro pr hpr
  unfold contingencyFor at hpr
  simpa using List.of_mem_filter hpr

/-- C4: for every categorical feature, after dropping the categories
whose counts sum to zero across reference and batch, the detector
assigns p-value `1.0` (and hence no drift for that feature) when fewer
than two categories remain, and otherwise runs the chi-square test on the
2-by-K table; in both cases `detect_drift` returns a full report rather
than raising. -/
theorem chi_square_inconclusive_policy
    (ksP : Col → Col → ℚ) (chi2P : List ℕ → List ℕ → ℚ)
    (ref new : DataFrame) (u1 u2 c1 c2 v1 v2 d1 d2 : Col)
    (h1 : ref.getCol "url_length" = some u1)
    (h2 : ref.getCol "num_special_chars" = some u2)
    (h3 : ref.getCol "has_ip_address" = some c1)
    (h4 : ref.getCol "https_token" = some c2)
    (h5 : new.getCol "url_length" = some v1)
    (h6 : new.getCol "num_special_chars" = some v2)
    (h7 : new.getCol "has_ip_address" = some d1)
    (h8 : new.getCol "https_token" = some d2) :
    ∃ g report, detectDrift ksP chi2P ref new = some (g, report) ∧
      ∀ f a b, f ∈ categorical_features → ref.getCol f = some a →
        new.getCol f = some b →
        (f, chiRec chi2P a b) ∈ report ∧
        (∀ pr ∈ contingencyFor a b, 0 < pr.1 + pr.2) ∧
        ((contingencyFor a b).length < 2 →
          chiRec chi2P a b = ⟨"Chi-Square", 1, false⟩) ∧
        (¬ (contingencyFor a b).length < 2 →
          (chiRec chi2P a b).p_value =
            chi2P ((contingencyFor a b).map Prod.fst)
              ((contingencyFor a b).map Prod.snd)) := by
  refine ⟨_, _, detectDrift_eq h1 h2 h3 h4 h5 h6 h7 h8, ?_⟩
  intro f a b hf ha hb
  have hone : ∀ a b : Col, (contingencyFor a b).length < 2 →
      chiRec chi2P a b = ⟨"Chi-Square", 1, false⟩ := by
    intro a b hlen
    unfold chiRec chiP
    rw [if_pos hlen]
    have : ¬ ((1 : ℚ) < p_value_threshold) := by
      norm_num [p_value_threshold]
    simp [this]
  have hchi : ∀ a b : Col, ¬ (contingencyFor a b).length < 2 →
      (chiRec chi2P a b).p_value =
        chi2P ((contingencyFor a b).map Prod.fst)
          ((contingencyFor a b).map Prod.snd) := by
    intro a b hlen
    unfold chiRec chiP
    rw [if_neg hlen]
  simp only [categorical_features, List.mem_cons, List.not_mem_nil,
    or_false] at hf
  rcases hf with hf | hf <;> subst hf
  · rw [h3] at ha
    rw [h7] at hb
    cases ha
    cases hb
    exact ⟨by simp, mem_contingencyFor_pos, hone _ _, hchi _ _⟩
  · rw [h4] at ha
    rw [h8] at hb
    cases ha
    cases hb
    exact ⟨by simp, mem_contingencyFor_pos, hone _ _, hchi _ _⟩

/-- Witness for C4 at concrete datasets exercising both the inconclusive
branch (`https_token` is constant in both sets) and the tested branch
(`has_ip_address` has two supported categories). -/
theorem chi_square_inconclusive_policy_witness :
    ∃ g report, detectDrift wKsHalf wChiHalf wRef wRef = some (g, report) ∧
      ∀ f a b, f ∈ categorical_features → wRef.getCol f = some a →
        wRef.getCol f = some b →
        (f, chiRec wChiHalf a b) ∈ report ∧
        (∀ pr ∈ contingencyFor a b, 0 < pr.1 + pr.2) ∧
        ((contingencyFor a b).length < 2 →
          chiRec wChiHalf a b = ⟨"Chi-Square", 1, false⟩) ∧
        (¬ (contingencyFor a b).length < 2 →
          (chiRec wChiHalf a b).p_value =
            wChiHalf ((contingencyFor a b).map Prod.fst)
              ((contingencyFor a b).map Prod.snd)) :=
  chi_square_inconclusive_policy wKsHalf wChiHalf wRef wRef
    [1, 2] [0, 1] [0, 1] [1, 1] [1, 2] [0, 1] [0, 1] [1, 1]
    (by with_unfolding_all decide) (by with_unfolding_all decide)
    (by with_unfolding_all decide) (by with_unfolding_all decide)
    (by with_unfolding_all decide) (by with_unfolding_all decide)
    (by with_unfolding_all decide) (by with_unfolding_all decide)

/-! ### C6 -/

/-- Zipping a list with itself and filtering yields pairs whose two
components agree, so the two rows of the filtered table coincide. -/
theorem filter_zip_self_fst_eq_snd (l : List ℕ) (p : ℕ × ℕ → Bool) :
    ((l.zip l).filter p).map Prod.fst = ((l.zip l).filter p).map Prod.snd := by
  induction l with
  | nil => rfl
  | cons x xs ih =>
    simp only [List.zip_cons_cons, List.filter_cons]
    cases p (x, x) <;> simp [ih]

/-- The contingency table a column induces against itself has equal
reference and batch rows. -/
theorem contingencyFor_self (v : Col) :
    (contingencyFor v v).map Prod.fst = (contingencyFor v v).map Prod.snd := by
  unfold contingencyFor
  exact filter_zip_self_fst_eq_snd _ _

/-- C6: running `detect_drift` with the reference equal to the batch
yields p-value `1.0` for every feature and a global `drift_detected` of
`false`.  The facts that `ks_2samp` reports p-value `1` on identical
samples and `chi2_contingency` reports p-value `1` on a table with equal
rows are properties of the external scipy routines, taken as hypotheses
on the oracles. -/
theorem identical_datasets_no_drift
    (ksP : Col → Col → ℚ) (chi2P : List ℕ → List ℕ → ℚ) (d : DataFrame)
    (u1 u2 c1 c2 : Col)
    (hks : ∀ v, ksP v v = 1) (hchi : ∀ r, chi2P r r = 1)
    (h1 : d.getCol "url_length" = some u1)
    (h2 : d.getCol "num_special_chars" = some u2)
    (h3 : d.getCol "has_ip_address" = some c1)
    (h4 : d.getCol "https_token" = some c2) :
    ∃ report, detectDrift ksP chi2P d d = some (false, report) ∧
      ∀ pr ∈ report, pr.2.p_value = 1 ∧ pr.2.drift_detected = false := by
  have hnlt : ¬ ((1 : ℚ) < p_value_threshold) := by
    norm_num [p_value_threshold]
  have hksRec : ∀ v, ksRec ksP v v = ⟨"KS", 1, false⟩ := by
    intro v
    unfold ksRec
    rw [hks v]
    simp [hnlt]
  have hchiP : ∀ v, chiP chi2P v v = 1 := by
    intro v
    unfold chiP
    by_cases hlen : (contingencyFor v v).length < 2
    · rw [if_pos hlen]
    · rw [if_neg hlen, contingencyFor_self v]
      exact hchi _
  have hchiRec : ∀ v, chiRec chi2P v v = ⟨"Chi-Square", 1, false⟩ := by
    intro v
    unfold chiRec
    rw [hchiP v]
    simp [hnlt]
  refine ⟨[("url_length", ⟨"KS", 1, false⟩),
           ("num_special_chars", ⟨"KS", 1, false⟩),
           ("has_ip_address", ⟨"Chi-Square", 1, false⟩),
           ("https_token", ⟨"Chi-Square", 1, false⟩)], ?_, ?_⟩
  · rw [detectDrift_eq h1 h2 h3 h4 h1 h2 h3 h4, hksRec u1, hksRec u2,
      hchiRec c1, hchiRec c2]
    rfl
  · intro pr hpr
    simp only [List.mem_cons, List.not_mem_nil, or_false] at hpr
    rcases hpr with hpr | hpr | hpr | hpr <;> subst hpr <;> exact ⟨rfl, rfl⟩

/-- Witness for C6 at a concrete dataset, with oracles that honour the
scipy facts taken as hypotheses. -/
theorem identical_datasets_no_drift_witness :
    ∃ report, detectDrift wKsRefl wChiRefl wRef wRef = some (false, report) ∧
      ∀ pr ∈ report, pr.2.p_value = 1 ∧ pr.2.drift_detected = false :=
  identical_datasets_no_drift wKsRefl wChiRefl wRef
    [1, 2] [0, 1] [0, 1] [1, 1]
    (fun v => by simp [wKsRefl]) (fun r => by simp [wChiRefl])
    (by with_unfolding_all decide) (by with_unfolding_all decide)
    (by with_unfolding_all decide) (by with_unfolding_all decide)

/-! ### C9 -/

/-- C9: every drift report lists each schema feature exactly once as a
key, in loop order; the numerical features carry test kind `"KS"` and the
categorical ones `"Chi-Square"`; and every recorded p-value lies in
`[0, 1]`, given that the external test oracles return p-values in
`[0, 1]`. -/
theorem drift_report_invariants
    (ksP : Col → Col → ℚ) (chi2P : List ℕ → List ℕ → ℚ)
    (ref new : DataFrame) (g : Bool) (report : Report)
    (hks : ∀ a b, 0 ≤ ksP a b ∧ ksP a b ≤ 1)
    (hchi : ∀ a b, 0 ≤ chi2P a b ∧ chi2P a b ≤ 1)
    (h : detectDrift ksP chi2P ref new = some (g, report)) :
    report.map Prod.fst = numerical_features ++ categorical_features ∧
    ∀ pr ∈ report, (0 ≤ pr.2.p_value ∧ pr.2.p_value ≤ 1) ∧
      (pr.1 ∈ numerical_features → pr.2.test = "KS") ∧
      (pr.1 ∈ categorical_features → pr.2.test = "Chi-Square") := by
  obtain ⟨r1, r2, r3, r4, h1, h2, h3, h4, hrep, hg⟩ := detectDrift_inv h
  obtain ⟨a1, b1, -, -, e1⟩ := numFeatureReport_shape h1
  obtain ⟨a2, b2, -, -, e2⟩ := numFeatureReport_shape h2
  obtain ⟨a3, b3, -, -, e3⟩ := catFeatureReport_shape h3
  obtain ⟨a4, b4, -, -, e4⟩ := catFeatureReport_shape h4
  have hifP : ∀ a b : Col, 0 ≤ (if (contingencyFor a b).length < 2 then (1 : ℚ)
      else chi2P ((contingencyFor a b).map Prod.fst)
        ((contingencyFor a b).map Prod.snd)) ∧
      (if (contingencyFor a b).length < 2 then (1 : ℚ)
      else chi2P ((contingencyFor a b).map Prod.fst)
        ((contingencyFor a b).map Prod.snd)) ≤ 1 := by
    intro a b
    by_cases hlen : (contingencyFor a b).length < 2
    · rw [if_pos hlen]
      norm_num
    · rw [if_neg hlen]
      exact hchi _ _
  subst hrep
  refine ⟨rfl, ?_⟩
  intro pr hpr
  simp only [List.mem_cons, List.not_mem_nil, or_false] at hpr
  rcases hpr with hpr | hpr | hpr | hpr <;> subst hpr
  · exact ⟨by rw [e1]; exact hks a1 b1, fun _ => by rw [e1],
      fun hmem => by simp [categorical_features] at hmem⟩
  · exact ⟨by rw [e2]; exact hks a2 b2, fun _ => by rw [e2],
      fun hmem => by simp [categorical_features] at hmem⟩
  · exact ⟨by rw [e3]; exact hifP a3 b3,
      fun hmem => by simp [numerical_features] at hmem, fun _ => by rw [e3]⟩
  · exact ⟨by rw [e4]; exact hifP a4 b4,
      fun hmem => by simp [numerical_features] at hmem, fun _ => by rw [e4]⟩

/-- Witness for C9 at a concrete reference and batch with in-range
oracles. -/
theorem drift_report_invariants_witness :
    wReport.map Prod.fst = numerical_features ++ categorical_features ∧
    ∀ pr ∈ wReport, (0 ≤ pr.2.p_value ∧ pr.2.p_value ≤ 1) ∧
      (pr.1 ∈ numerical_features → pr.2.test = "KS") ∧
      (pr.1 ∈ categorical_features → pr.2.test = "Chi-Square") :=
  drift_report_invariants wKsHalf wChiHalf wRef wRef false wReport
    (fun a b => by norm_num [wKsHalf]) (fun a b => by norm_num [wChiHalf])
    (by with_unfolding_all decide)

/-! ### C7 -/

/-- C7: when the monitor holds no reference (detector is `None`) and the
reference-load attempt fails again, `process_batch` returns the
structured `{'error': ...}` result — it does not raise — and the batch
provider is not consulted in that cycle. -/
theorem not_ready_load_failure_errors
    (ksP : Col → Col → ℚ) (chi2P : List ℕ → List ℕ → ℚ)
    (fit : DataFrame → Col → Option Model) (dumpOk writeOk : Bool)
    (fs : FS) (st : MonitorState) (new_data : DataFrame)
    (hst : st.reference_data = none) (hfs : fs.refFile = none) :
    process_batch ksP chi2P fit dumpOk writeOk fs st new_data =
      some ⟨fs, ⟨none⟩,
        .error "Reference data not found. Train model first.", false⟩ := by
  unfold process_batch
  rw [hst, hfs]

/-- Witness for C7 at a concrete empty persisted state. -/
theorem not_ready_load_failure_errors_witness :
    process_batch wKsHalf wChiHalf wFitOk true true ⟨none, none⟩ ⟨none⟩
        wBatch =
      some ⟨⟨none, none⟩, ⟨none⟩,
        .error "Reference data not found. Train model first.", false⟩ :=
  not_ready_load_failure_errors wKsHalf wChiHalf wFitOk true true
    ⟨none, none⟩ ⟨none⟩ wBatch rfl rfl

/-! ### C8 -/

theorem load_reference_data_fst (fs : FS) :
    (load_reference_data fs).1 = ⟨fs.refFile⟩ := by
  obtain ⟨rf, mf⟩ := fs
  cases rf <;> rfl

/-- A monitor that already holds a reference skips the load attempt and
runs the Ready part of the cycle against that reference. -/
theorem process_batch_ready
    (ksP : Col → Col → ℚ) (chi2P : List ℕ → List ℕ → ℚ)
    (fit : DataFrame → Col → Option Model) (dumpOk writeOk : Bool)
    (fs : FS) (st : MonitorState) (ref new_data : DataFrame)
    (hst : st.reference_data = some ref) :
    process_batch ksP chi2P fit dumpOk writeOk fs st new_data =
      runReadyCycle ksP chi2P fit dumpOk writeOk fs ref new_data := by
  obtain ⟨rd⟩ := st
  have hrd : rd = some ref := hst
  subst hrd
  rfl

/-- C8: within one `process_batch` cycle, detection runs against the
reference the monitor held when the cycle began (the outcome of the
previous cycle, or the initial training for the first one); the held
reference enters `detect_drift` unmutated, and the monitor's reference is
replaced only afterwards — in the drift branch, by reloading whatever the
completed retrain left in the reference file. -/
theorem detection_uses_precycle_reference
    (ksP : Col → Col → ℚ) (chi2P : List ℕ → List ℕ → ℚ)
    (fit : DataFrame → Col → Option Model) (dumpOk writeOk : Bool)
    (fs : FS) (st : MonitorState) (ref new_data : DataFrame)
    (out : CycleOutput)
    (hst : st.reference_data = some ref)
    (hout : process_batch ksP chi2P fit dumpOk writeOk fs st new_data =
      some out) :
    ∃ g report,
      detectDrift ksP chi2P ref (new_data.dropCol "is_phishing") =
        some (g, report) ∧
      out.result = .cycle new_data g report g ∧
      out.fs = (if g then retrain_model fit dumpOk writeOk fs new_data
                else fs) ∧
      out.st.reference_data =
        (if g then (retrain_model fit dumpOk writeOk fs new_data).refFile
         else some ref) := by
  rw [process_batch_ready ksP chi2P fit dumpOk writeOk fs st ref new_data
    hst] at hout
  cases hy : new_data.getCol "is_phishing" with
  | none =>
    have hrr : runReadyCycle ksP chi2P fit dumpOk writeOk fs ref new_data =
        none := by
      simp [runReadyCycle, hy]
    rw [hrr] at hout
    exact Option.noConfusion hout
  | some y =>
    cases hd : detectDrift ksP chi2P ref (new_data.dropCol "is_phishing") with
    | none =>
      have hrr : runReadyCycle ksP chi2P fit dumpOk writeOk fs ref
          new_data = none := by
        simp [runReadyCycle, hy, hd]
      rw [hrr] at hout
      exact Option.noConfusion hout
    | some p =>
      obtain ⟨g, report⟩ := p
      refine ⟨g, report, rfl, ?_⟩
      cases g with
      | false =>
        have hrr : runReadyCycle ksP chi2P fit dumpOk writeOk fs ref
            new_data = some ⟨fs, ⟨some ref⟩,
              .cycle new_data false report false, true⟩ := by
          simp [runReadyCycle, hy, hd]
        rw [hrr] at hout
        injection hout with h0
        subst h0
        exact ⟨rfl, by simp, by simp⟩
      | true =>
        have hrr : runReadyCycle ksP chi2P fit dumpOk writeOk fs ref
            new_data = some ⟨retrain_model fit dumpOk writeOk fs new_data,
              (load_reference_data
                (retrain_model fit dumpOk writeOk fs new_data)).1,
              .cycle new_data true report true, true⟩ := by
          simp [runReadyCycle, hy, hd]
        rw [hrr] at hout
        injection hout with h0
        subst h0
        refine ⟨rfl, by simp, ?_⟩
        simp [load_reference_data_fst]

/-- Witness for C8 at a concrete ready monitor processing a no-drift
batch. -/
theorem detection_uses_precycle_reference_witness :
    ∃ g report,
      detectDrift wKsHalf wChiHalf wRef (wBatch.dropCol "is_phishing") =
        some (g, report) ∧
      (⟨⟨some wRef, none⟩, ⟨some wRef⟩,
          .cycle wBatch false wReport false, true⟩ : CycleOutput).result =
        .cycle wBatch g report g ∧
      (⟨⟨some wRef, none⟩, ⟨some wRef⟩,
          .cycle wBatch false wReport false, true⟩ : CycleOutput).fs =
        (if g then retrain_model wFitOk true true ⟨some wRef, none⟩ wBatch
         else ⟨some wRef, none⟩) ∧
      (⟨⟨some wRef, none⟩, ⟨some wRef⟩,
          .cycle wBatch false wReport false, true⟩ :
            CycleOutput).st.reference_data =
        (if g then
          (retrain_model wFitOk true true ⟨some wRef, none⟩ wBatch).refFile
         else some wRef) :=
  detection_uses_precycle_reference wKsHalf wChiHalf wFitOk true true
    ⟨some wRef, none⟩ ⟨some wRef⟩ wRef wBatch
    ⟨⟨some wRef, none⟩, ⟨some wRef⟩, .cycle wBatch false wReport false, true⟩
    rfl (by with_unfolding_all decide)

/-! ### C1 -/

/-- Whenever the retrain fails — the model fit raises, the model dump
raises, or the reference write raises — the persisted reference dataset
is left exactly as it was. -/
theorem retrain_refFile_unchanged_of_failure
    (fit : DataFrame → Col → Option Model) (dumpOk writeOk : Bool)
    (fs : FS) (b : DataFrame)
    (hfail : (∀ y, b.getCol "is_phishing" = some y →
        fit (b.dropCol "is_phishing") y = none) ∨
      dumpOk = false ∨ writeOk = false) :
    (retrain_model fit dumpOk writeOk fs b).refFile = fs.refFile := by
  obtain ⟨rf, mf⟩ := fs
  cases rf with
  | none => rfl
  | some old =>
    cases hy : b.getCol "is_phishing" with
    | none => simp [retrain_model, hy]
    | some y =>
      cases hfit : fit (b.dropCol "is_phishing") y with
      | none => simp [retrain_model, hy, hfit]
      | some m =>
        rcases hfail with hf | hd | hw
        · rw [hf y hy] at hfit
          exact Option.noConfusion hfit
        · subst hd
          simp [retrain_model, hy, hfit]
        · subst hw
          cases dumpOk <;> simp [retrain_model, hy, hfit]

/-- Counterexample to C1 as stated: at a concrete drifting batch whose
model fit raises (`wFitFail`), the cycle result still carries
`retrained = true` — the monitor sets the flag unconditionally after
calling the retrainer, which swallows the failure — so the claimed
`retrained = false` is refuted, even though the reference file is indeed
unchanged. -/
theorem retrain_failure_cycle_cex :
    process_batch wKsZero wChiHalf wFitFail true true ⟨some wRef, none⟩
        ⟨some wRef⟩ wBatch =
      some ⟨⟨some wRef, none⟩, ⟨some wRef⟩,
        .cycle wBatch true wDriftReport true, true⟩ := by
  with_unfolding_all decide

/-- C1 (amended): if drift is detected but retraining fails (the model
fit or either persistence step raises), the cycle result has
`drift_detected = true` and `retrained = true` — the monitor reports the
retrain as done because the retrainer swallows the failure — while the
persisted reference dataset after the cycle equals the one from before
it. -/
theorem retrain_failure_cycle_result
    (ksP : Col → Col → ℚ) (chi2P : List ℕ → List ℕ → ℚ)
    (fit : DataFrame → Col → Option Model) (dumpOk writeOk : Bool)
    (fs : FS) (st : MonitorState) (ref new_data : DataFrame)
    (report : Report) (out : CycleOutput)
    (hst : st.reference_data = some ref)
    (hdrift : detectDrift ksP chi2P ref (new_data.dropCol "is_phishing") =
      some (true, report))
    (hout : process_batch ksP chi2P fit dumpOk writeOk fs st new_data =
      some out)
    (hfail : (∀ y, new_data.getCol "is_phishing" = some y →
        fit (new_data.dropCol "is_phishing") y = none) ∨
      dumpOk = false ∨ writeOk = false) :
    out.result = .cycle new_data true report true ∧
    out.fs.refFile = fs.refFile := by
  rw [process_batch_ready ksP chi2P fit dumpOk writeOk fs st ref new_data
    hst] at hout
  cases hy : new_data.getCol "is_phishing" with
  | none =>
    have hrr : runReadyCycle ksP chi2P fit dumpOk writeOk fs ref new_data =
        none := by
      simp [runReadyCycle, hy]
    rw [hrr] at hout
    exact Option.noConfusion hout
  | some y =>
    have hrr : runReadyCycle ksP chi2P fit dumpOk writeOk fs ref new_data =
        some ⟨retrain_model fit dumpOk writeOk fs new_data,
          (load_reference_data
            (retrain_model fit dumpOk writeOk fs new_data)).1,
          .cycle new_data true report true, true⟩ := by
      simp [runReadyCycle, hy, hdrift]
    rw [hrr] at hout
    injection hout with h0
    subst h0
    exact ⟨rfl,
      retrain_refFile_unchanged_of_failure fit dumpOk writeOk fs new_data
        hfail⟩

/-- Witness for the amended C1 at the counterexample's concrete input. -/
theorem retrain_failure_cycle_result_witness :
    (⟨⟨some wRef, none⟩, ⟨some wRef⟩,
        .cycle wBatch true wDriftReport true, true⟩ : CycleOutput).result =
      .cycle wBatch true wDriftReport true ∧
    (⟨⟨some wRef, none⟩, ⟨some wRef⟩,
        .cycle wBatch true wDriftReport true, true⟩ :
          CycleOutput).fs.refFile = (⟨some wRef, none⟩ : FS).refFile :=
  retrain_failure_cycle_result wKsZero wChiHalf wFitFail true true
    ⟨some wRef, none⟩ ⟨some wRef⟩ wRef wBatch wDriftReport
    ⟨⟨some wRef, none⟩, ⟨some wRef⟩, .cycle wBatch true wDriftReport true,
      true⟩
    rfl (by with_unfolding_all decide) (by with_unfolding_all decide)
    (Or.inl (fun y _ => rfl))

/-! ### C3 -/

/-- C3: when retraining succeeds on a labeled batch, the new model is the
provider's fit of that batch's feature columns and labels alone — no
prior reference data enters the call — and the persisted reference
dataset afterwards is exactly the batch with the label column removed. -/
theorem retrain_success_uses_batch_only
    (fit : DataFrame → Col → Option Model) (fs : FS) (b old : DataFrame)
    (y : Col) (m : Model)
    (href : fs.refFile = some old)
    (hy : b.getCol "is_phishing" = some y)
    (hfit : fit (b.dropCol "is_phishing") y = some m) :
    retrain_model fit true true fs b =
      ⟨some (b.dropCol "is_phishing"), some m⟩ := by
  obtain ⟨rf, mf⟩ := fs
  have hrf : rf = some old := href
  subst hrf
  simp [retrain_model, hy, hfit]

/-- Witness for C3 at a concrete labeled batch and succeeding provider. -/
theorem retrain_success_uses_batch_only_witness :
    retrain_model wFitOk true true ⟨some wRef, none⟩ wBatch =
      ⟨some (wBatch.dropCol "is_phishing"),
       some ⟨wBatch.dropCol "is_phishing", [0, 1]⟩⟩ :=
  retrain_success_uses_batch_only wFitOk ⟨some wRef, none⟩ wBatch wRef
    [0, 1] ⟨wBatch.dropCol "is_phishing", [0, 1]⟩ rfl
    (by with_unfolding_all decide) rfl

/-! ### C10 -/

/-- C10: `retrain_model` reads the persisted reference file before doing
anything else, although that data never enters training; when
`models/reference_data.csv` is absent the read raises, the handler
swallows the error, and the whole retrain aborts with neither a new model
nor a new reference written — for every labeled batch. -/
theorem retrain_aborts_without_reference_file
    (fit : DataFrame → Col → Option Model) (dumpOk writeOk : Bool)
    (fs : FS) (b : DataFrame) (h : fs.refFile = none) :
    retrain_model fit dumpOk writeOk fs b = fs := by
  obtain ⟨rf, mf⟩ := fs
  have hrf : rf = none := h
  subst hrf
  rfl

/-- Witness for C10 at a concrete labeled batch and empty store. -/
theorem retrain_aborts_without_reference_file_witness :
    retrain_model wFitOk true true ⟨none, none⟩ wBatch = ⟨none, none⟩ :=
  retrain_aborts_without_reference_file wFitOk true true ⟨none, none⟩
    wBatch rfl

end PhishMon
